import Mathlib

/-!
A verification development for a financial-advisor agent service built on
FastAPI.  The embedding below translates, at the level of values and control
flow, the Python modules `agent/agent.py` (session registry, HTTP boundary,
streaming event bridge), `agent/tools/yfinance_tools.py` (numeric sanitizer
and the five market-data retrieval operations), and the stage contract
declared in `agent/sub_agents/*/prompt.py`.

Python floats are modelled as an inductive with a finite (rational) case and
the special values NaN / +inf / -inf; Python dictionaries become association
lists; exceptions become `Except` values carrying the exception's message
(and, where the catch clauses discriminate, its class).
-/

namespace FinAdvisor

/-- A Python float value: either finite (modelled by a rational) or one of
the special values NaN, positive infinity, negative infinity. -/
inductive PyFloat where
  | fin (q : ℚ)
  | nan
  | inf
  | ninf
deriving DecidableEq, Repr

/-- A Python value as it occurs in provider dictionaries: `None`, a numeric
value, or a string.  `float(s)` on a string either parses to a float or
raises; the outcome is carried as the `asFloat` field of the string case. -/
inductive PyVal where
  | none
  | num (f : PyFloat)
  | str (s : String) (asFloat : Option PyFloat)
deriving DecidableEq, Repr

/-- `pd.isna` restricted to floats: true exactly on NaN. -/
def floatIsNa : PyFloat → Bool
  | PyFloat.nan => true
  | _ => false

/-- Python `==` on floats (NaN compares unequal to everything). -/
def floatEq : PyFloat → PyFloat → Bool
  | PyFloat.fin p, PyFloat.fin q => p == q
  | PyFloat.inf, PyFloat.inf => true
  | PyFloat.ninf, PyFloat.ninf => true
  | _, _ => false

/-- `float(value)`: identity on numbers, the recorded parse outcome on
strings (`Option.none` = the conversion raises), raises on `None`. -/
def pyFloat : PyVal → Option PyFloat
  | PyVal.none => Option.none
  | PyVal.num f => some f
  | PyVal.str _ a => a

/-- Python truthiness of the values above (`None`, `0.0` and `""` are falsy;
NaN and the infinities are truthy). -/
def truthy : PyVal → Bool
  | PyVal.none => false
  | PyVal.num (PyFloat.fin q) => q ≠ 0
  | PyVal.num _ => true
  | PyVal.str s _ => s ≠ ""

/-- Python `a or b`. -/
def pyOr (a b : PyVal) : PyVal := if truthy a then a else b

/-- `safe_float` from `agent/tools/yfinance_tools.py`: `None` short-circuits;
otherwise `float(value)` is attempted (a raised `ValueError`/`TypeError`
yields `None`); a result that is NaN or ±infinity yields `None`; any other
float is returned. -/
def safe_float (value : PyVal) : Option PyFloat :=
  match value with
  | PyVal.none => Option.none
  | v =>
    match pyFloat v with
    | Option.none => Option.none
    | some f =>
      if floatIsNa f || floatEq f PyFloat.inf || floatEq f PyFloat.ninf then
        Option.none
      else
        some f

/-- C6: `safe_float` (the spec's `sanitize`) is absent exactly when the input
is `None`, non-numeric (its float conversion raises), NaN, or ±infinity;
any value converting to a finite float is returned as that finite float; in
particular `sanitize(NaN)`, `sanitize(None)`, `sanitize(Infinity)` are absent
and `sanitize(3.14) = 3.14`. -/
theorem safe_float_spec :
    (∀ v : PyVal, safe_float v = Option.none ↔
      (v = PyVal.none ∨ pyFloat v = Option.none ∨ pyFloat v = some PyFloat.nan ∨
       pyFloat v = some PyFloat.inf ∨ pyFloat v = some PyFloat.ninf)) ∧
    (∀ (v : PyVal) (q : ℚ), pyFloat v = some (PyFloat.fin q) →
      safe_float v = some (PyFloat.fin q)) ∧
    safe_float (PyVal.num PyFloat.nan) = Option.none ∧
    safe_float PyVal.none = Option.none ∧
    safe_float (PyVal.num PyFloat.inf) = Option.none ∧
    safe_float (PyVal.num (PyFloat.fin (mkRat 157 50))) = some (PyFloat.fin (mkRat 157 50)) := by
  refine ⟨?_, ?_, rfl, rfl, rfl, rfl⟩
  · intro v
    cases v with
    | none => simp [safe_float, pyFloat]
    | num f => cases f <;> simp [safe_float, pyFloat, floatIsNa, floatEq]
    | str s a =>
      cases a with
      | none => simp [safe_float, pyFloat]
      | some f => cases f <;> simp [safe_float, pyFloat, floatIsNa, floatEq]
  · intro v q h
    cases v with
    | none => simp [pyFloat] at h
    | num f =>
      simp [pyFloat] at h
      subst h
      simp [safe_float, pyFloat, floatIsNa, floatEq]
    | str s a =>
      simp [pyFloat] at h
      subst h
      simp [safe_float, pyFloat, floatIsNa, floatEq]

/-- Witness for C6: a value holding the finite float 5/2 sanitizes to 5/2. -/
theorem safe_float_spec_witness :
    safe_float (PyVal.str "2.5" (some (PyFloat.fin (mkRat 5 2)))) =
      some (PyFloat.fin (mkRat 5 2)) :=
  safe_float_spec.2.1 (PyVal.str "2.5" (some (PyFloat.fin (mkRat 5 2)))) (mkRat 5 2) rfl

/-- A value stored in a returned result dictionary: a float, an int, a
string, Python `None` (only ever stored inside nested data points), a nested
dictionary, or a list. -/
inductive RVal where
  | num (f : PyFloat)
  | int (n : Int)
  | str (s : String)
  | null
  | dict (entries : List (String × RVal))
  | list (items : List RVal)

/-- A result dictionary, keys in insertion order. -/
abbrev Record := List (String × RVal)

/-- A provider `info` dictionary (`yf.Ticker(t).info`). -/
abbrev Info := List (String × PyVal)

/-- `info.get(k)`: the stored value, or `None` when the key is absent. -/
def dictGet (info : Info) (k : String) : PyVal := (info.lookup k).getD PyVal.none

/-- `info.get(k, d)`: the stored value, or `d` when the key is absent. -/
def dictGetD (info : Info) (k : String) (d : PyVal) : PyVal := (info.lookup k).getD d

/-- Storing a Python value in a result dictionary that is then cleaned with
`if v is not None`: `None` disappears, numbers and strings survive. -/
def rvalOfPy : PyVal → Option RVal
  | PyVal.none => Option.none
  | PyVal.num f => some (RVal.num f)
  | PyVal.str s _ => some (RVal.str s)

/-- The `{k: v for k, v in result.items() if v is not None}` cleanup. -/
def filtered (fields : List (String × Option RVal)) : Record :=
  fields.filterMap (fun kv => kv.2.map (fun r => (kv.1, r)))

/-- `ticker.upper()` (character-wise, so that it evaluates by `rfl`). -/
def pyUpper (s : String) : String := ⟨s.data.map Char.toUpper⟩

/-- The raw field list built by `get_stock_price` before the `None` cleanup,
field by field from `agent/tools/yfinance_tools.py`. -/
def stock_price_fields (ticker : String) (info : Info) : List (String × Option RVal) :=
  [("ticker", some (RVal.str (pyUpper ticker))),
   ("currentPrice", (safe_float (pyOr (dictGet info "currentPrice") (dictGet info "regularMarketPrice"))).map RVal.num),
   ("previousClose", (safe_float (dictGet info "previousClose")).map RVal.num),
   ("open", (safe_float (pyOr (dictGet info "regularMarketOpen") (dictGet info "open"))).map RVal.num),
   ("dayHigh", (safe_float (dictGet info "dayHigh")).map RVal.num),
   ("dayLow", (safe_float (dictGet info "dayLow")).map RVal.num),
   ("volume", (safe_float (dictGet info "volume")).map RVal.num),
   ("marketCap", (safe_float (dictGet info "marketCap")).map RVal.num),
   ("fiftyTwoWeekHigh", (safe_float (dictGet info "fiftyTwoWeekHigh")).map RVal.num),
   ("fiftyTwoWeekLow", (safe_float (dictGet info "fiftyTwoWeekLow")).map RVal.num),
   ("currency", rvalOfPy (dictGetD info "currency" (PyVal.str "USD" Option.none))),
   ("exchange", rvalOfPy (dictGet info "exchange")),
   ("longName", rvalOfPy (pyOr (dictGet info "longName") (dictGet info "shortName")))]

/-- `get_stock_price`: an exception from the provider (the `fetch` argument
models the `yf.Ticker(...).info` access inside the outer `try`) yields an
error record; an empty/absent `info` yields the fixed "No data available"
error record; otherwise the cleaned field record is returned unless it has
no field besides the ticker, in which case a "No valid price data" error
record is returned. -/
def get_stock_price (ticker : String) (fetch : Except String Info) : Record :=
  match fetch with
  | Except.error e =>
    [("ticker", RVal.str (pyUpper ticker)),
     ("error", RVal.str ("Failed to fetch stock price: " ++ e))]
  | Except.ok info =>
    if info.isEmpty then
      [("ticker", RVal.str (pyUpper ticker)),
       ("error", RVal.str "No data available for this ticker. Please verify the ticker symbol is correct.")]
    else
      if (filtered (stock_price_fields ticker info)).length ≤ 1 then
        [("ticker", RVal.str (pyUpper ticker)),
         ("error", RVal.str "No valid price data available for this ticker")]
      else filtered (stock_price_fields ticker info)

/-- A Python exception as discriminated by the catch clauses of
`get_historical_data`: `ValueError`/`TypeError` are caught by the inner
handler, `OverflowError` only by the outer `except Exception`. -/
inductive PyExn where
  | valueError (msg : String)
  | typeError (msg : String)
  | overflowError (msg : String)
deriving DecidableEq, Repr

/-- `str(e)` of an exception. -/
def exnMsg : PyExn → String
  | PyExn.valueError m => m
  | PyExn.typeError m => m
  | PyExn.overflowError m => m

/-- Membership in `except (ValueError, TypeError)`. -/
def caughtVT : PyExn → Bool
  | PyExn.valueError _ => true
  | PyExn.typeError _ => true
  | PyExn.overflowError _ => false

/-- `pd.notna`: false exactly on `None` and NaN (the infinities pass). -/
def notna : PyVal → Bool
  | PyVal.none => false
  | PyVal.num PyFloat.nan => false
  | _ => true

/-- `float(value)` with its exception: raises `TypeError` on `None`, the
recorded `ValueError` on an unparsable string. -/
def pyFloatE : PyVal → Except PyExn PyFloat
  | PyVal.none => Except.error (PyExn.typeError "float() argument must be a string or a real number, not 'NoneType'")
  | PyVal.num f => Except.ok f
  | PyVal.str s a =>
    match a with
    | some f => Except.ok f
    | Option.none => Except.error (PyExn.valueError ("could not convert string to float: " ++ s))

/-- Truncation toward zero, as Python `int()` applied to a float. -/
def pyTrunc (q : ℚ) : Int := q.num.tdiv (q.den : ℤ)

/-- `int(value)`: truncates finite floats, raises `ValueError` on NaN and on
strings, `OverflowError` on the infinities, `TypeError` on `None`. -/
def pyIntE : PyVal → Except PyExn Int
  | PyVal.none => Except.error (PyExn.typeError "int() argument must be a string, a bytes-like object or a real number, not 'NoneType'")
  | PyVal.num (PyFloat.fin q) => Except.ok (pyTrunc q)
  | PyVal.num PyFloat.nan => Except.error (PyExn.valueError "cannot convert float NaN to integer")
  | PyVal.num PyFloat.inf => Except.error (PyExn.overflowError "cannot convert float infinity to integer")
  | PyVal.num PyFloat.ninf => Except.error (PyExn.overflowError "cannot convert float infinity to integer")
  | PyVal.str s _ => Except.error (PyExn.valueError ("invalid literal for int() with base 10: " ++ s))

/-- `round(q, 2)` on a finite value, i.e. `⌊100q + 1/2⌋ / 100` computed on
the numerator and denominator (half-way ties abstracted to round-half-up). -/
def pyRound2 (q : ℚ) : ℚ := mkRat ((200 * q.num + (q.den : ℤ)).fdiv (2 * (q.den : ℤ))) 100

/-- `round(x, 2)` on a float: the special values pass through unchanged. -/
def roundF2 : PyFloat → PyFloat
  | PyFloat.fin q => PyFloat.fin (pyRound2 q)
  | f => f

/-- One raw row of the historical DataFrame, as accessed by column name. -/
structure HistRow where
  date : String
  open_ : PyVal
  high : PyVal
  low : PyVal
  close : PyVal
  volume : PyVal
deriving DecidableEq, Repr

/-- The dict literal built inside the `try` of the row loop of
`get_historical_data`, conversions evaluated in source order. -/
def histPoint (r : HistRow) : Except PyExn Record := do
  let o ← pyFloatE r.open_
  let h ← pyFloatE r.high
  let l ← pyFloatE r.low
  let c ← pyFloatE r.close
  let v ← pyIntE r.volume
  pure [("date", RVal.str r.date), ("open", RVal.num (roundF2 o)),
        ("high", RVal.num (roundF2 h)), ("low", RVal.num (roundF2 l)),
        ("close", RVal.num (roundF2 c)), ("volume", RVal.int v)]

/-- One iteration of the row loop: the five-way `pd.notna` filter, then the
`try` body with `except (ValueError, TypeError): continue`; an uncaught
exception propagates. -/
def histRowStep (r : HistRow) : Except PyExn (Option Record) :=
  if notna r.open_ && notna r.high && notna r.low && notna r.close && notna r.volume then
    match histPoint r with
    | Except.ok p => Except.ok (some p)
    | Except.error e => if caughtVT e then Except.ok Option.none else Except.error e
  else
    Except.ok Option.none

/-- The full row loop accumulating `hist_data`. -/
def histCollect : List HistRow → Except PyExn (List Record)
  | [] => Except.ok []
  | r :: rs =>
    match histRowStep r with
    | Except.error e => Except.error e
    | Except.ok Option.none => histCollect rs
    | Except.ok (some p) =>
      match histCollect rs with
      | Except.error e => Except.error e
      | Except.ok ps => Except.ok (p :: ps)

/-- The `period_used` value computed before fetching: the explicit date
range when both bounds are given, the period string otherwise. -/
def period_used (period : String) (startDate endDate : Option String) : String :=
  match startDate, endDate with
  | some s, some e => s ++ " to " ++ e
  | _, _ => period

/-- `get_historical_data`: fetch failure and uncaught in-loop exceptions both
land in the outer `except Exception`; an empty DataFrame and an empty
filtered list each yield their fixed error records; otherwise the success
record with the surviving data points. -/
def get_historical_data (ticker : String) (period : String)
    (startDate endDate : Option String) (fetch : Except String (List HistRow)) : Record :=
  match fetch with
  | Except.error e =>
    [("ticker", RVal.str (pyUpper ticker)),
     ("error", RVal.str ("Failed to fetch historical data: " ++ e))]
  | Except.ok hist =>
    if hist.isEmpty then
      [("ticker", RVal.str (pyUpper ticker)),
       ("error", RVal.str "No historical data available for the specified period")]
    else
      match histCollect hist with
      | Except.error e =>
        [("ticker", RVal.str (pyUpper ticker)),
         ("error", RVal.str ("Failed to fetch historical data: " ++ exnMsg e))]
      | Except.ok histData =>
        if histData.isEmpty then
          [("ticker", RVal.str (pyUpper ticker)),
           ("error", RVal.str "No valid historical data points found (all values were NaN or invalid)")]
        else
          [("ticker", RVal.str (pyUpper ticker)),
           ("period", RVal.str (period_used period startDate endDate)),
           ("dataPoints", RVal.int histData.length),
           ("data", RVal.list (histData.map RVal.dict))]

/-- The company-info and valuation fields of `get_financial_info` (the one
source-level dict literal is split in three here only to keep elaboration
cheap; `financial_info_fields` below concatenates them in source order). -/
def financial_info_fieldsA (ticker : String) (info : Info) : List (String × Option RVal) :=
  [("ticker", some (RVal.str (pyUpper ticker))),
   ("companyName", rvalOfPy (pyOr (dictGet info "longName") (dictGet info "shortName"))),
   ("sector", rvalOfPy (dictGet info "sector")),
   ("industry", rvalOfPy (dictGet info "industry")),
   ("website", rvalOfPy (dictGet info "website")),
   ("description", rvalOfPy (dictGet info "longBusinessSummary")),
   ("country", rvalOfPy (dictGet info "country")),
   ("employees", rvalOfPy (dictGet info "fullTimeEmployees")),
   ("marketCap", (safe_float (dictGet info "marketCap")).map RVal.num),
   ("trailingPE", (safe_float (dictGet info "trailingPE")).map RVal.num),
   ("forwardPE", (safe_float (dictGet info "forwardPE")).map RVal.num),
   ("priceToBook", (safe_float (dictGet info "priceToBook")).map RVal.num)]

/-- The earnings, revenue and analyst fields of `get_financial_info`. -/
def financial_info_fieldsB (info : Info) : List (String × Option RVal) :=
  [("earningsPerShare", (safe_float (dictGet info "trailingEps")).map RVal.num),
   ("revenuePerShare", (safe_float (dictGet info "revenuePerShare")).map RVal.num),
   ("profitMargins", (safe_float (dictGet info "profitMargins")).map RVal.num),
   ("operatingMargins", (safe_float (dictGet info "operatingMargins")).map RVal.num),
   ("totalRevenue", (safe_float (dictGet info "totalRevenue")).map RVal.num),
   ("revenueGrowth", (safe_float (dictGet info "revenueGrowth")).map RVal.num),
   ("earningsGrowth", (safe_float (dictGet info "earningsGrowth")).map RVal.num),
   ("targetMeanPrice", (safe_float (dictGet info "targetMeanPrice")).map RVal.num),
   ("targetHighPrice", (safe_float (dictGet info "targetHighPrice")).map RVal.num),
   ("targetLowPrice", (safe_float (dictGet info "targetLowPrice")).map RVal.num),
   ("recommendationKey", rvalOfPy (dictGet info "recommendationKey")),
   ("numberOfAnalystOpinions", (safe_float (dictGet info "numberOfAnalystOpinions")).map RVal.num)]

/-- The dividend and trading fields of `get_financial_info`. -/
def financial_info_fieldsC (info : Info) : List (String × Option RVal) :=
  [("dividendRate", (safe_float (dictGet info "dividendRate")).map RVal.num),
   ("dividendYield", (safe_float (dictGet info "dividendYield")).map RVal.num),
   ("payoutRatio", (safe_float (dictGet info "payoutRatio")).map RVal.num),
   ("exDividendDate", rvalOfPy (dictGet info "exDividendDate")),
   ("beta", (safe_float (dictGet info "beta")).map RVal.num),
   ("averageVolume", (safe_float (dictGet info "averageVolume")).map RVal.num),
   ("averageVolume10days", (safe_float (dictGet info "averageVolume10days")).map RVal.num)]

/-- The raw field list built by `get_financial_info` before the `None`
cleanup, field by field from the source. -/
def financial_info_fields (ticker : String) (info : Info) : List (String × Option RVal) :=
  financial_info_fieldsA ticker info ++ financial_info_fieldsB info ++ financial_info_fieldsC info

/-- `get_financial_info`: a provider exception yields an error record;
otherwise the cleaned field record is returned as-is (the source has no
near-empty check here). -/
def get_financial_info (ticker : String) (fetch : Except String Info) : Record :=
  match fetch with
  | Except.error e =>
    [("ticker", RVal.str (pyUpper ticker)),
     ("error", RVal.str ("Failed to fetch financial info: " ++ e))]
  | Except.ok info => filtered (financial_info_fields ticker info)

/-- One row of the earnings-dates DataFrame. -/
structure EarnRow where
  date : String
  epsEstimate : PyVal
  reportedEPS : PyVal
  surprise : PyVal
deriving DecidableEq, Repr

/-- `float(row.get(k, 0)) if pd.notna(row.get(k)) else None` for one
earnings field (a raised conversion error propagates to the outer handler). -/
def earnField (v : PyVal) : Except PyExn RVal :=
  if notna v then
    match pyFloatE v with
    | Except.ok f => Except.ok (RVal.num f)
    | Except.error e => Except.error e
  else
    Except.ok RVal.null

/-- One entry of `earnings_list`. -/
def earnPoint (r : EarnRow) : Except PyExn Record := do
  let e ← earnField r.epsEstimate
  let p ← earnField r.reportedEPS
  let s ← earnField r.surprise
  pure [("date", RVal.str r.date), ("epsEstimate", e), ("reportedEPS", p), ("surprise", s)]

/-- The earnings-row loop. -/
def earnCollect : List EarnRow → Except PyExn (List Record)
  | [] => Except.ok []
  | r :: rs =>
    match earnPoint r with
    | Except.error e => Except.error e
    | Except.ok p =>
      match earnCollect rs with
      | Except.error e => Except.error e
      | Except.ok ps => Except.ok (p :: ps)

/-- `get_earnings_dates`: the `isFuture` parameter models the comparison of
a parsed row date against `datetime.now()`; an absent or empty DataFrame
yields the fixed message record; the success record carries the first
future date (or `None`) and at most the first 10 data points. -/
def get_earnings_dates (ticker : String) (isFuture : String → Bool)
    (fetch : Except String (Option (List EarnRow))) : Record :=
  match fetch with
  | Except.error e =>
    [("ticker", RVal.str (pyUpper ticker)),
     ("error", RVal.str ("Failed to fetch earnings dates: " ++ e))]
  | Except.ok data =>
    match data with
    | Option.none =>
      [("ticker", RVal.str (pyUpper ticker)),
       ("message", RVal.str "No earnings dates available")]
    | some rows =>
      if rows.isEmpty then
        [("ticker", RVal.str (pyUpper ticker)),
         ("message", RVal.str "No earnings dates available")]
      else
        match earnCollect rows with
        | Except.error e =>
          [("ticker", RVal.str (pyUpper ticker)),
           ("error", RVal.str ("Failed to fetch earnings dates: " ++ exnMsg e))]
        | Except.ok lst =>
          let upcoming := (rows.map (fun r => r.date)).find? isFuture
          [("ticker", RVal.str (pyUpper ticker)),
           ("upcomingEarningsDate",
             match upcoming with
             | some d => RVal.str d
             | Option.none => RVal.null),
           ("data", RVal.list ((lst.take 10).map RVal.dict))]

/-- Python `str()` of a provider value (the textual rendering of a number is
irrelevant to every property proved here and is abstracted to a marker). -/
def pyStr : PyVal → String
  | PyVal.none => "None"
  | PyVal.str s _ => s
  | PyVal.num (PyFloat.fin _) => "<float>"
  | PyVal.num PyFloat.nan => "nan"
  | PyVal.num PyFloat.inf => "inf"
  | PyVal.num PyFloat.ninf => "-inf"

/-- One row of the recommendations DataFrame; a field is `Option.none` when
the column is absent (`row.get` then returns its default). -/
structure RecRow where
  date : String
  firm : Option PyVal
  toGrade : Option PyVal
  fromGrade : Option PyVal
  action : Option PyVal
deriving DecidableEq, Repr

/-- `row.get(k, '')`. -/
def recGetD (v : Option PyVal) : PyVal := v.getD (PyVal.str "" Option.none)

/-- `row.get(k)`. -/
def recGet (v : Option PyVal) : PyVal := v.getD PyVal.none

/-- One entry of `recs_list`. -/
def recEntry (r : RecRow) : Record :=
  [("date", RVal.str r.date),
   ("firm", RVal.str (pyStr (recGetD r.firm))),
   ("toGrade", RVal.str (pyStr (recGetD r.toGrade))),
   ("fromGrade",
     if notna (recGet r.fromGrade) then RVal.str (pyStr (recGetD r.fromGrade)) else RVal.null),
   ("action",
     if notna (recGet r.action) then RVal.str (pyStr (recGetD r.action)) else RVal.null)]

/-- The fallback branch of `get_analyst_recommendations` taken when the
recommendations DataFrame is absent or empty: a second provider access reads
`info["recommendationKey"]` and truthiness-tests it. -/
def rec_fallback (ticker : String) (info : Info) : Record :=
  if truthy (dictGet info "recommendationKey") then
    [("ticker", RVal.str (pyUpper ticker)),
     ("currentRecommendation", (rvalOfPy (dictGet info "recommendationKey")).getD RVal.null),
     ("message", RVal.str "Detailed recommendations history not available")]
  else
    [("ticker", RVal.str (pyUpper ticker)),
     ("message", RVal.str "No analyst recommendations available")]

/-- `get_analyst_recommendations`: with no recommendations DataFrame the
function falls back to `info["recommendationKey"]` (truthiness-tested);
otherwise the last 20 rows (`recommendations.tail(20)`) are rendered. -/
def get_analyst_recommendations (ticker : String)
    (fetch : Except String (Option (List RecRow))) (info : Info) : Record :=
  match fetch with
  | Except.error e =>
    [("ticker", RVal.str (pyUpper ticker)),
     ("error", RVal.str ("Failed to fetch analyst recommendations: " ++ e))]
  | Except.ok recs =>
    match recs with
    | Option.none => rec_fallback ticker info
    | some rows =>
      if rows.isEmpty then rec_fallback ticker info
      else
        [("ticker", RVal.str (pyUpper ticker)),
         ("totalRecommendations", RVal.int ((rows.drop (rows.length - 20)).map recEntry).length),
         ("data", RVal.list (((rows.drop (rows.length - 20)).map recEntry).map RVal.dict))]

/-- The middleware agent object built by `create_agent` in `agent/agent.py`.
Python object identity is modelled by `instanceId`, a tag fresh per
construction (the registry state below carries the allocator). -/
structure ADKAgent where
  user_id : String
  app_name : String
  session_timeout_seconds : Nat
  instanceId : Nat
deriving DecidableEq, Repr

/-- `create_agent(thread_id)`: a new middleware agent bound to the thread. -/
def create_agent (thread_id : String) (fresh : Nat) : ADKAgent :=
  { user_id := thread_id
    app_name := "finacial_advisor_app"
    session_timeout_seconds := 3600
    instanceId := fresh }

/-- The `SessionManager` state: the `sessions` dict plus the identity
allocator. -/
structure SessionManager where
  sessions : List (String × ADKAgent)
  nextInstance : Nat
deriving DecidableEq, Repr

/-- `SessionManager.get_agent`: look the thread id up; on a miss construct a
new agent and insert it, then return the stored agent.  The Python body has
no `await` point, so under the single-threaded asyncio event loop it runs
atomically; concurrent callers therefore execute it in some serial order,
which `runConcurrent` below realises. -/
def SessionManager.get_agent (sm : SessionManager) (thread_id : String) :
    ADKAgent × SessionManager :=
  match sm.sessions.lookup thread_id with
  | some a => (a, sm)
  | Option.none =>
    let a := create_agent thread_id sm.nextInstance
    (a, { sessions := (thread_id, a) :: sm.sessions, nextInstance := sm.nextInstance + 1 })

/-- `n` concurrent `get_agent` calls with one thread id: since each call body
is atomic (no suspension point), the event loop interleaves them only at
whole-call granularity, i.e. they run back to back in some order — with a
single id every order is this sequence. -/
def runConcurrent (thread_id : String) : Nat → SessionManager → List ADKAgent × SessionManager
  | 0, sm => ([], sm)
  | n + 1, sm =>
    let first := sm.get_agent thread_id
    let rest := runConcurrent thread_id n first.2
    (first.1 :: rest.1, rest.2)

/-- An inbound HTTP request, reduced to what `handle_request` reads from it. -/
structure HttpRequest where
  headers : List (String × String)
deriving DecidableEq, Repr

/-- The session-selection step of `handle_request`:
`request.headers.get("x-thread-id", "default_thread")` followed by
`session_manager.get_agent(thread_id)`. -/
def handle_request (req : HttpRequest) (sm : SessionManager) : ADKAgent × SessionManager :=
  let thread_id := (req.headers.lookup "x-thread-id").getD "default_thread"
  sm.get_agent thread_id

/-- An event flowing from `ADKAgent.run` to the encoder, or synthesized by
the bridge: source events are opaque, run-error events carry code and
message as built in `agent/agent.py`. -/
inductive AgEvent where
  | src (tag : Nat)
  | runError (code : String) (message : String)
deriving DecidableEq, Repr

/-- The synthetic event built on an encoding failure, message containing the
original failure text. -/
def encodingErrorEvent (msg : String) : AgEvent :=
  AgEvent.runError "ENCODING_ERROR" ("Event encoding failed: " ++ msg)

/-- The synthetic event built when `ADKAgent.run` itself raises. -/
def agentErrorEvent (msg : String) : AgEvent :=
  AgEvent.runError "AGENT_ERROR" ("Agent execution failed: " ++ msg)

/-- The fixed literal SSE chunk yielded when even the encoding-error event
cannot be encoded. -/
def basicEncodingErrorChunk : String :=
  "event: error\ndata: \x7b\"error\": \"Event encoding failed\"\x7d\n\n"

/-- The fixed literal SSE chunk yielded when the agent-error event cannot be
encoded. -/
def basicAgentErrorChunk : String :=
  "event: error\ndata: \x7b\"error\": \"Agent execution failed\"\x7d\n\n"

/-- An outbound chunk.  The constructor records which control path emitted
it — `ok` for a successfully encoded source event, `err` for the single
synthetic error emission (encoded or literal); erasing the tag gives
exactly the byte strings the Python generator yields. -/
inductive Chunk where
  | ok (bytes : String)
  | err (bytes : String)
deriving DecidableEq, Repr

/-- Whether a chunk came from an error path. -/
def Chunk.isErr : Chunk → Bool
  | Chunk.ok _ => false
  | Chunk.err _ => true

/-- `event_generator` from `agent/agent.py`.  The source sequence is the
list of events `ADKAgent.run` yields before it either completes
(`failure = none`) or raises with message `failure = some msg`; `encode`
models `encoder.encode`, an `Except.error` carrying `str(exception)`.
Per event: encode and yield; on an encode failure, encode and yield the
synthetic `ENCODING_ERROR` event (falling back to the fixed literal chunk)
and `break`; a source failure yields one `AGENT_ERROR` emission (with the
same literal fallback). -/
def event_generator (encode : AgEvent → Except String String) :
    List AgEvent → Option String → List Chunk
  | [], failure =>
    (match failure with
     | Option.none => []
     | some msg =>
       match encode (agentErrorEvent msg) with
       | Except.ok c => [Chunk.err c]
       | Except.error _ => [Chunk.err basicAgentErrorChunk])
  | e :: rest, failure =>
    match encode e with
    | Except.ok c => Chunk.ok c :: event_generator encode rest failure
    | Except.error msg =>
      match encode (encodingErrorEvent msg) with
      | Except.ok c => [Chunk.err c]
      | Except.error _ => [Chunk.err basicEncodingErrorChunk]

/-- The number of error chunks in an outbound stream. -/
def errCount (cs : List Chunk) : Nat := (cs.filter Chunk.isErr).length

/-- Whether a run fails: some event's encoding raises, or the source itself
terminates abnormally. -/
def runFails (encode : AgEvent → Except String String)
    (events : List AgEvent) (failure : Option String) : Bool :=
  events.any (fun e =>
    match encode e with
    | Except.ok _ => false
    | Except.error _ => true) || failure.isSome

/-- A pipeline stage of the Stage Contract: name, required state keys,
produced state key, and the halt-message template instantiated with a
missing key. -/
structure Stage where
  name : String
  required_keys : List String
  produces_key : String
  halt_message : String → String

/-- An event produced by one stage run. -/
inductive StageEvent where
  | runError (message : String)
  | finished
deriving DecidableEq, Repr

/-- The per-session keyed State Store. -/
abbrev Store := List (String × String)

/-- The outcome of one stage run; `engineInvoked` records whether the
reasoning engine was called. -/
structure StageResult where
  events : List StageEvent
  store : Store
  engineInvoked : Bool

/-- Modelled from the spec: the deterministic `run_stage` supervisor of
section 4.2 is not part of the repository sources — the prompts under
`agent/sub_agents/*/prompt.py` only declare each stage's required key,
produced key and halt message, and delegate enforcement to the language
model.  Per the spec: if a required key is missing, halt immediately with a
single run-error event whose message instantiates the halt-message template
at the first missing key, invoke no engine, and write nothing; otherwise run
the engine on the resolved required values and write its output once under
`produces_key`. -/
def run_stage (stage : Stage) (engine : List (String × String) → String)
    (store : Store) : StageResult :=
  match stage.required_keys.find? (fun k => (store.lookup k).isNone) with
  | some missing =>
    { events := [StageEvent.runError (stage.halt_message missing)]
      store := store
      engineInvoked := false }
  | Option.none =>
    let ctx := stage.required_keys.filterMap (fun k => (store.lookup k).map (fun v => (k, v)))
    { events := [StageEvent.finished]
      store := store ++ [(stage.produces_key, engine ctx)]
      engineInvoked := true }

/-- Stage 2 (trading analyst) as declared in
`agent/sub_agents/trading_analyst/prompt.py`: the single required state key
and the first sentence of the prompt's user-facing halt message, as a
template over the missing key; the produced key is the one the downstream
execution-analyst prompt requires. -/
def tradingAnalystStage : Stage :=
  { name := "trading_analyst"
    required_keys := ["market_data_analysis_output"]
    produces_key := "proposed_trading_strategies_output"
    halt_message := fun k =>
      "Error: The foundational market analysis data (from " ++ k ++ ") is missing or incomplete." }

/-- A concrete historical fetch whose single row has an infinite `Open` and
finite other fields. -/
def infOpenRow : HistRow :=
  { date := "2024-01-02"
    open_ := PyVal.num PyFloat.inf
    high := PyVal.num (PyFloat.fin 1)
    low := PyVal.num (PyFloat.fin 1)
    close := PyVal.num (PyFloat.fin 1)
    volume := PyVal.num (PyFloat.fin 1) }

/-- C7: evaluating the code at the failing input.  The row filter is
`pd.notna` on the five OHLCV columns, which passes ±infinity, so a raw row
with `Open = inf` survives into a *success* record whose data point carries
a non-finite `open` — contradicting both the claim and the source's own
comment ("Check if any values are NaN or infinity"). -/
theorem get_historical_data_inf_leak :
    get_historical_data "aapl" "1mo" Option.none Option.none (Except.ok [infOpenRow]) =
      [("ticker", RVal.str "AAPL"), ("period", RVal.str "1mo"),
       ("dataPoints", RVal.int 1),
       ("data", RVal.list [RVal.dict
         [("date", RVal.str "2024-01-02"), ("open", RVal.num PyFloat.inf),
          ("high", RVal.num (PyFloat.fin 1)), ("low", RVal.num (PyFloat.fin 1)),
          ("close", RVal.num (PyFloat.fin 1)), ("volume", RVal.int 1)]])] := rfl

/-- C8 counterexample: `get_financial_info` on an `info` dictionary with no
usable field returns the record holding nothing besides the ticker as a
success record — no `"error"` field and no fixed "no data" message — so the
claimed policy does not hold for every provider retrieval operation. -/
theorem get_financial_info_near_empty_counterexample :
    get_financial_info "aapl" (Except.ok []) = [("ticker", RVal.str "AAPL")] ∧
    (get_financial_info "aapl" (Except.ok [])).lookup "error" = Option.none :=
  ⟨rfl, rfl⟩

/-- C8 amended: `get_stock_price` turns a post-sanitization record with no
field besides the ticker into the fixed "No valid price data" error record,
but `get_financial_info` returns such a near-empty record unchanged. -/
theorem near_empty_record_policy :
    (∀ (t : String) (info : Info), info.isEmpty = false →
      (filtered (stock_price_fields t info)).length ≤ 1 →
      get_stock_price t (Except.ok info) =
        [("ticker", RVal.str (pyUpper t)),
         ("error", RVal.str "No valid price data available for this ticker")]) ∧
    (∀ t : String, get_financial_info t (Except.ok []) = [("ticker", RVal.str (pyUpper t))]) := by
  constructor
  · intro t info h1 h2
    simp [get_stock_price, h1, h2]
  · intro t
    rfl

/-- Witness for C8's amended statement at a concrete input: an `info`
carrying only `currency = None` defeats the always-present currency default,
so the cleaned record is ticker-only and the error record is returned. -/
theorem near_empty_record_policy_witness :
    get_stock_price "ibm" (Except.ok [("currency", PyVal.none)]) =
      [("ticker", RVal.str "IBM"),
       ("error", RVal.str "No valid price data available for this ticker")] :=
  near_empty_record_policy.1 "ibm" [("currency", PyVal.none)] rfl (by decide)

/-- C10: every record returned by any of the five retrieval operations, on
every path (provider exception, empty data, fallback, success), carries a
`"ticker"` field equal to the upper-cased input ticker. -/
theorem ticker_field_upper :
    (∀ (t : String) (fetch : Except String Info),
      (get_stock_price t fetch).lookup "ticker" = some (RVal.str (pyUpper t))) ∧
    (∀ (t period : String) (sd ed : Option String) (fetch : Except String (List HistRow)),
      (get_historical_data t period sd ed fetch).lookup "ticker" = some (RVal.str (pyUpper t))) ∧
    (∀ (t : String) (fetch : Except String Info),
      (get_financial_info t fetch).lookup "ticker" = some (RVal.str (pyUpper t))) ∧
    (∀ (t : String) (isFuture : String → Bool) (fetch : Except String (Option (List EarnRow))),
      (get_earnings_dates t isFuture fetch).lookup "ticker" = some (RVal.str (pyUpper t))) ∧
    (∀ (t : String) (fetch : Except String (Option (List RecRow))) (info : Info),
      (get_analyst_recommendations t fetch info).lookup "ticker" = some (RVal.str (pyUpper t))) := by
  refine ⟨?_, ?_, ?_, ?_, ?_⟩
  · intro t fetch
    cases fetch with
    | error e => simp [get_stock_price, List.lookup]
    | ok info =>
      simp only [get_stock_price]
      split
      · simp [List.lookup]
      · split
        · simp [List.lookup]
        · simp [filtered, stock_price_fields, List.lookup]
  · intro t period sd ed fetch
    cases fetch with
    | error e => simp [get_historical_data, List.lookup]
    | ok hist =>
      simp only [get_historical_data]
      split
      · simp [List.lookup]
      · split
        · simp [List.lookup]
        · split
          · simp [List.lookup]
          · simp [List.lookup]
  · intro t fetch
    cases fetch with
    | error e => simp [get_financial_info, List.lookup]
    | ok info =>
      simp [get_financial_info, financial_info_fields, financial_info_fieldsA,
            filtered, List.lookup]
  · intro t isFuture fetch
    cases fetch with
    | error e => simp [get_earnings_dates, List.lookup]
    | ok data =>
      cases data with
      | none => simp [get_earnings_dates, List.lookup]
      | some rows =>
        simp only [get_earnings_dates]
        split
        · simp [List.lookup]
        · split
          · simp [List.lookup]
          · simp [List.lookup]
  · intro t fetch info
    cases fetch with
    | error e => simp [get_analyst_recommendations, List.lookup]
    | ok recs =>
      cases recs with
      | none =>
        simp only [get_analyst_recommendations, rec_fallback]
        split <;> simp [List.lookup]
      | some rows =>
        simp only [get_analyst_recommendations, rec_fallback]
        split
        · split <;> simp [List.lookup]
        · simp [List.lookup]

/-- C3: two sequential `get_agent` calls with the same thread id return the
same agent instance and leave the registry unchanged after the first call;
on a previously unseen id the first call constructs the new agent and
inserts it before returning. -/
theorem get_agent_sequential (sm : SessionManager) (tid : String) :
    ((sm.get_agent tid).2.get_agent tid).1 = (sm.get_agent tid).1 ∧
    ((sm.get_agent tid).2.get_agent tid).2 = (sm.get_agent tid).2 ∧
    (sm.sessions.lookup tid = Option.none →
      (sm.get_agent tid).2.sessions.lookup tid = some ((sm.get_agent tid).1) ∧
      (sm.get_agent tid).2.nextInstance = sm.nextInstance + 1 ∧
      (sm.get_agent tid).1 = create_agent tid sm.nextInstance) := by
  cases h : sm.sessions.lookup tid with
  | some a => simp [SessionManager.get_agent, h]
  | none => simp [SessionManager.get_agent, h, List.lookup]

/-- Witness for C3 on an empty registry: the second call returns the agent
stored by the first. -/
theorem get_agent_sequential_witness :
    (((⟨[], 0⟩ : SessionManager).get_agent "t").2.get_agent "t").1 =
      create_agent "t" 0 := by
  have h := get_agent_sequential ⟨[], 0⟩ "t"
  rw [h.1, (h.2.2 rfl).2.2]

/-- If the thread id is already present, any number of `get_agent` calls
returns the stored agent and leaves the state unchanged. -/
theorem runConcurrent_hit (tid : String) (a : ADKAgent) (sm : SessionManager)
    (h : sm.sessions.lookup tid = some a) (m : Nat) :
    runConcurrent tid m sm = (List.replicate m a, sm) := by
  induction m with
  | zero => simp [runConcurrent]
  | succ k ih => simp [runConcurrent, SessionManager.get_agent, h, ih, List.replicate]

/-- C4: `n ≥ 1` concurrent `get_agent` calls with one previously unseen
thread id construct exactly one session — the registry grows by one entry,
the identity allocator steps once — and every caller receives that single
instance.  (The call body has no suspension point, so the asyncio event loop
serializes the bodies; `runConcurrent` is that serial execution.) -/
theorem get_agent_concurrent (sm : SessionManager) (tid : String) (n : Nat)
    (h0 : sm.sessions.lookup tid = Option.none) (hn : 1 ≤ n) :
    (runConcurrent tid n sm).2.sessions.length = sm.sessions.length + 1 ∧
    (runConcurrent tid n sm).2.nextInstance = sm.nextInstance + 1 ∧
    ∀ a ∈ (runConcurrent tid n sm).1, a = create_agent tid sm.nextInstance := by
  cases n with
  | zero => exact absurd hn (by simp)
  | succ k =>
    have hstep :
        sm.get_agent tid =
          (create_agent tid sm.nextInstance,
           { sessions := (tid, create_agent tid sm.nextInstance) :: sm.sessions,
             nextInstance := sm.nextInstance + 1 }) := by
      simp [SessionManager.get_agent, h0]
    have hhit := runConcurrent_hit tid (create_agent tid sm.nextInstance)
      { sessions := (tid, create_agent tid sm.nextInstance) :: sm.sessions,
        nextInstance := sm.nextInstance + 1 } (by simp [List.lookup]) k
    refine ⟨?_, ?_, ?_⟩
    · simp [runConcurrent, hstep, hhit]
    · simp [runConcurrent, hstep, hhit]
    · intro a ha
      simp [runConcurrent, hstep, hhit] at ha
      rcases ha with h1 | h1
      · exact h1
      · exact h1.2

/-- Witness for C4: three concurrent calls on an empty registry allocate
exactly one instance. -/
theorem get_agent_concurrent_witness :
    (runConcurrent "s" 3 (⟨[], 5⟩ : SessionManager)).2.sessions.length = 0 + 1 ∧
    (runConcurrent "s" 3 (⟨[], 5⟩ : SessionManager)).2.nextInstance = 5 + 1 := by
  have h := get_agent_concurrent ⟨[], 5⟩ "s" 3 rfl (by decide)
  exact ⟨h.1, h.2.1⟩

/-- C5 counterexample: a request carrying the header `x-session-id: abc` is
routed to the session `"default_thread"`, not `"abc"` — the boundary reads
the header `x-thread-id`, and no `abc` session exists afterwards. -/
theorem session_header_counterexample :
    (handle_request ⟨[("x-session-id", "abc")]⟩ (⟨[], 0⟩ : SessionManager)).1.user_id
        = "default_thread" ∧
    (handle_request ⟨[("x-session-id", "abc")]⟩ (⟨[], 0⟩ : SessionManager)).2.sessions.lookup "abc"
        = Option.none ∧
    "default_thread" ≠ "abc" :=
  ⟨rfl, rfl, by decide⟩

/-- C5 amended: the HTTP boundary selects or creates the session keyed by
the request header `x-thread-id`, defaulting to `"default_thread"` when that
header is absent. -/
theorem thread_header_selects_session (req : HttpRequest) (sm : SessionManager) :
    (∀ v, req.headers.lookup "x-thread-id" = some v →
      handle_request req sm = sm.get_agent v) ∧
    (req.headers.lookup "x-thread-id" = Option.none →
      handle_request req sm = sm.get_agent "default_thread") := by
  constructor
  · intro v h
    simp [handle_request, h]
  · intro h
    simp [handle_request, h]

/-- Witness for C5's amended statement: the header value `t1` selects the
session `t1`. -/
theorem thread_header_selects_session_witness :
    handle_request ⟨[("x-thread-id", "t1")]⟩ (⟨[], 0⟩ : SessionManager)
      = (⟨[], 0⟩ : SessionManager).get_agent "t1" :=
  (thread_header_selects_session ⟨[("x-thread-id", "t1")]⟩ ⟨[], 0⟩).1 "t1" rfl

/-- A prefix of events that all encode successfully contributes exactly its
encoded chunks, in order, before the generator continues with the rest. -/
theorem event_generator_ok_append (encode : AgEvent → Except String String)
    (f : AgEvent → String) (pre : List AgEvent)
    (hpre : ∀ ev ∈ pre, encode ev = Except.ok (f ev))
    (tail : List AgEvent) (failure : Option String) :
    event_generator encode (pre ++ tail) failure
      = pre.map (fun ev => Chunk.ok (f ev)) ++ event_generator encode tail failure := by
  induction pre with
  | nil => simp
  | cons p ps ih =>
    have hp : encode p = Except.ok (f p) := hpre p (by simp)
    have ih2 := ih (fun ev hev => hpre ev (by simp [hev]))
    simp only [List.cons_append, event_generator, hp, List.map_cons, List.append_eq]
    rw [ih2]

/-- C1: when the k-th source event is the first to fail encoding, the stream
is exactly the k-1 previously encoded chunks followed by one synthetic error
chunk — the encoding of the `ENCODING_ERROR` run-error event whose message
extends the original failure text, or the fixed literal chunk if that
encoding fails too — and nothing after it: the remaining source events and
any pending source failure never contribute. -/
theorem encode_failure_stream (encode : AgEvent → Except String String)
    (f : AgEvent → String) (pre : List AgEvent) (e : AgEvent) (post : List AgEvent)
    (failure : Option String) (msg : String)
    (hpre : ∀ ev ∈ pre, encode ev = Except.ok (f ev))
    (he : encode e = Except.error msg) :
    event_generator encode (pre ++ e :: post) failure
      = pre.map (fun ev => Chunk.ok (f ev)) ++
        [(match encode (encodingErrorEvent msg) with
          | Except.ok c => Chunk.err c
          | Except.error _ => Chunk.err basicEncodingErrorChunk)] ∧
    encodingErrorEvent msg
      = AgEvent.runError "ENCODING_ERROR" ("Event encoding failed: " ++ msg) ∧
    msg.data <:+: ("Event encoding failed: " ++ msg).data := by
  refine ⟨?_, rfl, ?_⟩
  · rw [event_generator_ok_append encode f pre hpre (e :: post) failure]
    cases hsyn : encode (encodingErrorEvent msg) <;>
      simp [event_generator, he, hsyn]
  · exact ⟨("Event encoding failed: ").data, [], by simp⟩

/-- A concrete encoder for the C1 witness: event 0 encodes, event 1 raises,
run-error events encode. -/
def encWitness : AgEvent → Except String String
  | AgEvent.src 0 => Except.ok "chunk0"
  | AgEvent.src 1 => Except.error "boom"
  | _ => Except.ok "E"

/-- Witness for C1: the encoder fails on the 2nd of 4 events, the stream is
1 successful chunk plus 1 synthetic error chunk, the last 2 events unread. -/
theorem encode_failure_stream_witness :
    event_generator encWitness
        ([AgEvent.src 0] ++ AgEvent.src 1 :: [AgEvent.src 2, AgEvent.src 3]) Option.none
      = [Chunk.ok "chunk0", Chunk.err "E"] := by
  have h := encode_failure_stream encWitness
    (fun ev => match ev with | AgEvent.src 0 => "chunk0" | _ => "E")
    [AgEvent.src 0] (AgEvent.src 1) [AgEvent.src 2, AgEvent.src 3] Option.none "boom"
    (by intro ev hev; simp at hev; subst hev; rfl) rfl
  rw [h.1]
  rfl

/-- The chunks of an all-successful prefix carry no error tag. -/
theorem errCount_map_ok (bs : List String) : errCount (bs.map Chunk.ok) = 0 := by
  induction bs with
  | nil => rfl
  | cons b bs ih => simp [errCount, Chunk.isErr] at ih ⊢

/-- `errCount` distributes over append. -/
theorem errCount_append (xs ys : List Chunk) :
    errCount (xs ++ ys) = errCount xs + errCount ys := by
  simp [errCount]

/-- Shape of every bridge run: either every chunk is a successfully encoded
event and the run did not fail, or the chunks are an all-successful prefix
followed by exactly one error chunk and the run failed. -/
theorem event_generator_shape (encode : AgEvent → Except String String)
    (events : List AgEvent) (failure : Option String) :
    (∃ bs : List String, event_generator encode events failure = bs.map Chunk.ok ∧
      runFails encode events failure = false) ∨
    (∃ (bs : List String) (c : String),
      event_generator encode events failure = bs.map Chunk.ok ++ [Chunk.err c] ∧
      runFails encode events failure = true) := by
  induction events with
  | nil =>
    cases failure with
    | none => exact Or.inl ⟨[], rfl, rfl⟩
    | some msg =>
      refine Or.inr ?_
      cases hsyn : encode (agentErrorEvent msg) with
      | ok c => exact ⟨[], c, by simp [event_generator, hsyn], rfl⟩
      | error d => exact ⟨[], basicAgentErrorChunk, by simp [event_generator, hsyn], rfl⟩
  | cons e rest ih =>
    cases henc : encode e with
    | ok c =>
      rcases ih with ⟨bs, hout, hfail⟩ | ⟨bs, d, hout, hfail⟩
      · exact Or.inl ⟨c :: bs, by simp [event_generator, henc, hout],
          by simp [runFails, henc]; simpa [runFails] using hfail⟩
      · exact Or.inr ⟨c :: bs, d, by simp [event_generator, henc, hout],
          by simp [runFails, henc]; simpa [runFails] using hfail⟩
    | error msg =>
      refine Or.inr ?_
      cases hsyn : encode (encodingErrorEvent msg) with
      | ok c =>
        exact ⟨[], c, by simp [event_generator, henc, hsyn], by simp [runFails, henc]⟩
      | error d =>
        exact ⟨[], basicEncodingErrorChunk, by simp [event_generator, henc, hsyn],
          by simp [runFails, henc]⟩

/-- In an all-successful prefix followed by one error chunk, any split
placing an error-tagged chunk in the middle must place it last. -/
theorem err_chunk_is_last (bs : List String) (c : String) :
    ∀ (pre : List Chunk) (x : Chunk) (post : List Chunk),
      bs.map Chunk.ok ++ [Chunk.err c] = pre ++ x :: post →
      x.isErr = true → post = [] := by
  induction bs with
  | nil =>
    intro pre x post h hx
    cases pre with
    | nil =>
      simp at h
      exact h.2
    | cons p ps =>
      simp at h
  | cons b bs ih =>
    intro pre x post h hx
    cases pre with
    | nil =>
      simp at h
      rcases h with ⟨hx2, _⟩
      rw [← hx2] at hx
      simp [Chunk.isErr] at hx
    | cons p ps =>
      simp at h
      exact ih ps x post h.2 hx

/-- A chunk drawn from an all-successful output is never error-tagged. -/
theorem no_err_in_map_ok (bs : List String) :
    ∀ (pre : List Chunk) (x : Chunk) (post : List Chunk),
      bs.map Chunk.ok = pre ++ x :: post → x.isErr = true → False := by
  intro pre x post h hx
  have hmem : x ∈ bs.map Chunk.ok := by
    rw [h]
    exact List.mem_append_right pre (List.mem_cons_self x post)
  rcases List.mem_map.mp hmem with ⟨b, _, hb⟩
  rw [← hb] at hx
  simp [Chunk.isErr] at hx

/-- C2: every bridge run emits at most one error chunk, never emits any
chunk after an error chunk, and — whenever the run fails at all, by an event
encoding failure or by abnormal source termination — emits at least one
error chunk before the stream ends. -/
theorem single_error_chunk (encode : AgEvent → Except String String)
    (events : List AgEvent) (failure : Option String) :
    errCount (event_generator encode events failure) ≤ 1 ∧
    (∀ pre c post, event_generator encode events failure = pre ++ c :: post →
      c.isErr = true → post = []) ∧
    (runFails encode events failure = true →
      1 ≤ errCount (event_generator encode events failure)) := by
  rcases event_generator_shape encode events failure with
    ⟨bs, hout, hfail⟩ | ⟨bs, c, hout, hfail⟩
  · refine ⟨by simp [hout, errCount_map_ok], ?_, ?_⟩
    · intro pre x post h hx
      exact absurd (no_err_in_map_ok bs pre x post (hout ▸ h) hx) (fun hf => hf)
    · intro h
      rw [h] at hfail
      cases hfail
  · refine ⟨?_, ?_, ?_⟩
    · rw [hout, errCount_append, errCount_map_ok]
      simp [errCount, Chunk.isErr]
    · intro pre x post h hx
      exact err_chunk_is_last bs c pre x post (hout ▸ h) hx
    · intro _
      rw [hout, errCount_append, errCount_map_ok]
      simp [errCount, Chunk.isErr]

/-- An encoder that always raises, for the C2 witness. -/
def encAllFail : AgEvent → Except String String := fun _ => Except.error "enc down"

/-- Witness for C2: a failing run (every encoding raises) still emits an
error chunk. -/
theorem single_error_chunk_witness :
    1 ≤ errCount (event_generator encAllFail [AgEvent.src 0] Option.none) :=
  (single_error_chunk encAllFail [AgEvent.src 0] Option.none).2.2 (by decide)

/-- C9: running the trading-analyst stage on a store lacking
`market_data_analysis_output` halts with exactly one run-error event — the
halt-message template instantiated at (and hence naming) the missing key —
invokes no reasoning engine, and leaves the store unchanged, so nothing is
written under `proposed_trading_strategies_output`. -/
theorem stage2_missing_dependency (engine : List (String × String) → String)
    (store : Store) (h : store.lookup "market_data_analysis_output" = Option.none) :
    run_stage tradingAnalystStage engine store =
      { events := [StageEvent.runError
          (tradingAnalystStage.halt_message "market_data_analysis_output")]
        store := store
        engineInvoked := false } ∧
    ("market_data_analysis_output").data <:+:
      (tradingAnalystStage.halt_message "market_data_analysis_output").data := by
  constructor
  · simp [run_stage, tradingAnalystStage, List.find?, h]
  · exact ⟨("Error: The foundational market analysis data (from ").data,
           (") is missing or incomplete.").data, by simp [tradingAnalystStage]⟩

/-- Witness for C9 on the empty store: the engine is not invoked and the
store stays empty. -/
theorem stage2_missing_dependency_witness :
    (run_stage tradingAnalystStage (fun _ => "") []).engineInvoked = false ∧
    (run_stage tradingAnalystStage (fun _ => "") []).store = [] := by
  have h := stage2_missing_dependency (fun _ => "") [] rfl
  rw [h.1]
  exact ⟨rfl, rfl⟩

end FinAdvisor
